import Mathlib

set_option maxRecDepth 100000
set_option exponentiation.threshold 1200

/-!
Verification of the SOL transfer page (`src/pages/index.jsx`).

The whole application is a single React component `SolTransferApp`.  Its
mutable state (eight `useState` cells) is embedded as the structure
`AppState`; the event handlers (`connectWallet`, `handleAddressChange`,
`handleAmountChange`, `sendTransaction`) become pure functions from a state
(plus an environment describing the outcome of each external call) to a new
state.  External calls made by `sendTransaction` are recorded in an ordered
trace of `Event`s.

Numeric abstraction: JavaScript numbers are IEEE doubles.  We model a
parsed amount exactly, as a sign, a decimal mantissa and a power-of-ten
exponent, keeping the double range faithfully: literals whose exact value
reaches the double overflow threshold parse to `JsVal.inf` (JS
`Infinity`), positive literals that underflow to zero parse to a zero
value, and unparsable strings are `JsVal.nan`.  Rounding error of
individual double operations is abstracted away (exact arithmetic).
All computations are over `Nat`/`Int` so that concrete runs evaluate by
`decide`; the rational denotation `JsVal` values stand for is given by
`decQ`, used only in specification statements.
-/

/-- The base58 (Bitcoin) alphabet used by `bs58.decode`, which
`new PublicKey(string)` applies to its argument. -/
def base58Chars : List Char :=
  ['1','2','3','4','5','6','7','8','9',
   'A','B','C','D','E','F','G','H','J','K','L','M','N','P','Q','R','S','T','U','V','W','X','Y','Z',
   'a','b','c','d','e','f','g','h','i','j','k','m','n','o','p','q','r','s','t','u','v','w','x','y','z']

/-- Whether a character belongs to the base58 alphabet (`bs58.decode` throws
on any character outside of it). -/
def isB58Char (c : Char) : Bool := base58Chars.contains c

/-- Digit value of a base58 character (its index in the alphabet). -/
def b58Digit (c : Char) : Nat := base58Chars.findIdx (fun x => x = c)

/-- Value of a base58 string read as a big-endian base-58 numeral. -/
def b58Val (l : List Char) : Nat := l.foldl (fun a c => a * 58 + b58Digit c) 0

/-- Number of leading `'1'` characters; each contributes one leading zero
byte to the decoded output of `bs58.decode`. -/
def b58LeadingOnes (l : List Char) : Nat := (l.takeWhile (fun c => c = '1')).length

/-- Source `validateAddress` / `new PublicKey(address)` (lines 69-78):
the constructor base58-decodes the string and throws unless the decoded
byte length is exactly 32.  The decoded length is the number of leading
`'1'` digits plus the minimal byte length of the big-endian value, so a
string is a valid address iff every character is in the base58 alphabet
and either it is exactly 32 `'1'`s (value 0), or with `z < 32` leading
ones the value fits in `32 - z` bytes but not in `31 - z` bytes. -/
def isValidAddress (s : String) : Bool :=
  s.data.all isB58Char &&
    (let z := b58LeadingOnes s.data
     let v := b58Val s.data
     (z == 32 && v == 0) ||
       (z < 32 && decide (256 ^ (31 - z) ≤ v) && decide (v < 256 ^ (32 - z))))

/-- Result of JavaScript `parseFloat`: a finite double, carried exactly as
sign, decimal mantissa and power-of-ten exponent (value
`(-1)^neg * m * 10^e10`), or an infinity, or `NaN`. -/
inductive JsVal where
  | num (neg : Bool) (m : Nat) (e10 : ℤ)
  | inf
  | neginf
  | nan
deriving DecidableEq, Repr

/-- JavaScript whitespace skipped by `parseFloat` (the common members of
the WhiteSpace / LineTerminator productions). -/
def isJsWs (c : Char) : Bool := c = ' ' || c = '\t' || c = '\n' || c = '\r'

/-- Decimal digit test. -/
def isDigitChar (c : Char) : Bool := '0' ≤ c && c ≤ '9'

/-- Numeric value of a decimal digit string (big-endian). -/
def digitsVal (l : List Char) : Nat := l.foldl (fun a c => a * 10 + (c.toNat - '0'.toNat)) 0

/-- Mantissa and power-of-ten exponent of the longest decimal-literal
prefix `Digits ['.' Digits?] | '.' Digits` followed by an optional
exponent part `('e'|'E') ['+'|'-'] Digits`, as consumed by `parseFloat`
after sign handling; `none` when no digits are found (JS `NaN`). -/
def parseMantExp (l : List Char) : Option (Nat × ℤ) :=
  let intDs := l.takeWhile isDigitChar
  let r1 := l.dropWhile isDigitChar
  let fracDs :=
    match r1 with
    | '.' :: r => r.takeWhile isDigitChar
    | _ => []
  let r2 :=
    match r1 with
    | '.' :: r => r.dropWhile isDigitChar
    | _ => r1
  if intDs.isEmpty && fracDs.isEmpty then none
  else
    let m : Nat := digitsVal intDs * 10 ^ fracDs.length + digitsVal fracDs
    let expVal : ℤ :=
      match r2 with
      | 'e' :: rest | 'E' :: rest =>
        (match rest with
         | '-' :: ds => -(digitsVal (ds.takeWhile isDigitChar) : ℤ)
         | '+' :: ds => (digitsVal (ds.takeWhile isDigitChar) : ℤ)
         | ds => (digitsVal (ds.takeWhile isDigitChar) : ℤ))
      | _ => 0
    some (m, expVal - fracDs.length)

/-- Whether `m * 10^e10` reaches the double overflow threshold
`2^1024 - 2^970` (the midpoint above the largest finite double), stated
with `Nat` arithmetic by clearing the denominator. -/
def reachesOvf (m : Nat) (e10 : ℤ) : Bool :=
  if 0 ≤ e10 then decide (2 ^ 1024 - 2 ^ 970 ≤ m * 10 ^ e10.toNat)
  else decide ((2 ^ 1024 - 2 ^ 970) * 10 ^ (-e10).toNat ≤ m)

/-- Whether `m * 10^e10` is at or below the double underflow threshold
`2^(-1075)` (the midpoint below the smallest positive subnormal), stated
with `Nat` arithmetic by clearing denominators. -/
def belowUnd (m : Nat) (e10 : ℤ) : Bool :=
  if 0 ≤ e10 then decide (m * 10 ^ e10.toNat * 2 ^ 1075 ≤ 1)
  else decide (m * 2 ^ 1075 ≤ 10 ^ (-e10).toNat)

/-- JavaScript `parseFloat` on a string: skip whitespace, read an optional
sign, accept an `Infinity` literal, otherwise parse the longest decimal
prefix; collapse the result into the double range (overflow to infinity,
underflow to zero). -/
def jsParseFloat (s : String) : JsVal :=
  let l := s.data.dropWhile isJsWs
  let neg : Bool :=
    match l with
    | '-' :: _ => true
    | _ => false
  let l1 :=
    match l with
    | '-' :: r => r
    | '+' :: r => r
    | _ => l
  if ("Infinity".data).isPrefixOf l1 then (if neg then JsVal.neginf else JsVal.inf)
  else
    match parseMantExp l1 with
    | none => JsVal.nan
    | some (m, e) =>
      if reachesOvf m e then (if neg then JsVal.neginf else JsVal.inf)
      else if m ≠ 0 && belowUnd m e then JsVal.num neg 0 0
      else JsVal.num neg m e

/-- Source `validateAmount` (lines 80-85): `const floatValue =
parseFloat(value); const isValid = !isNaN(floatValue) && floatValue > 0`
(`Infinity > 0` is `true` in JS). -/
def validateAmountB (value : String) : Bool :=
  match jsParseFloat value with
  | JsVal.num neg m _ => !neg && decide (0 < m)
  | JsVal.inf => true
  | JsVal.neginf => false
  | JsVal.nan => false

/-- JavaScript `Math.round` (round half toward positive infinity) of the
fraction `p / d`, computed on integers: `⌊p/d + 1/2⌋ = ⌊(2p+d)/(2d)⌋`. -/
def jsRoundFrac (p : ℤ) (d : Nat) : ℤ := Int.fdiv (2 * p + d) (2 * d)

/-- Source line 120: `const lamports = Math.round(parseFloat(amount) * 1e9)`.
The product shifts the exponent by 9; a non-negative resulting exponent
means the value is an integer (`Math.round` is the identity there), a
negative one means rounding the fraction.  `none` models a non-finite
result (`NaN`/`Infinity` input). -/
def lamportsOf (amount : String) : Option ℤ :=
  match jsParseFloat amount with
  | JsVal.num neg m e10 =>
    let sign : ℤ := if neg then -1 else 1
    let e9 : ℤ := e10 + 9
    if 0 ≤ e9 then some (sign * m * 10 ^ e9.toNat)
    else some (jsRoundFrac (sign * m) (10 ^ (-e9).toNat))
  | _ => none


/-- The eight `useState` cells of `SolTransferApp` (lines 17-24).  The
connected wallet public key is carried as its base58 string. -/
structure AppState where
  receiverAddress : String
  amount : String
  confirmation : String
  wallet : Option String
  isLoading : Bool
  error : String
  isAddressValid : Bool
  isAmountValid : Bool
deriving DecidableEq, Repr

/-- Initial component state (lines 17-24): empty address, amount `"0.01"`,
no wallet, no messages, not loading, both validity flags `true`. -/
def initState : AppState :=
  { receiverAddress := "", amount := "0.01", confirmation := "", wallet := none,
    isLoading := false, error := "", isAddressValid := true, isAmountValid := true }

/-- Steps of `sendTransaction` recorded in order: the two local validator
runs, the transaction construction, and the four external calls. -/
inductive Event where
  | validateAddr
  | validateAmt
  | buildTx
  | getLatestBlockhash
  | signTransaction
  | sendRawTransaction
  | confirmTransaction
deriving DecidableEq, Repr

/-- Whether an `Event` is a call to the ledger RPC client or the wallet
agent (as opposed to purely local validation / construction). -/
def isExternalCall : Event → Bool
  | Event.getLatestBlockhash => true
  | Event.signTransaction => true
  | Event.sendRawTransaction => true
  | Event.confirmTransaction => true
  | _ => false

/-- Outcome of each external call `sendTransaction` may perform, an
`Except.error` carrying the thrown error's `.message`:
`connection.getLatestBlockhash()` (blockhash and lastValidBlockHeight),
`window.solana.signTransaction`, `connection.sendRawTransaction`
(returning the signature), and `connection.confirmTransaction`.
`buildThrowMsg` is the `.message` of the error `SystemProgram.transfer`
throws while encoding a non-finite lamport count (its exact wording
belongs to the web3 library and varies with its version, so it is an
input here); it is consulted only on that path. -/
structure Env where
  blockhashRes : Except String (String × Nat)
  signRes : Except String Unit
  sendRes : Except String String
  confirmRes : Except String Unit
  buildThrowMsg : String

/-- The transfer transaction assembled in lines 122-133: sender, recipient,
finite lamport count, fee payer, and the recent blockhash once attached.
Only built when the amount converts to a finite count — on `Infinity` the
instruction encoding throws (see `sendTransaction`). -/
structure Tx where
  fromPubkey : String
  toPubkey : String
  lamports : ℤ
  feePayer : String
  recentBlockhash : Option String
deriving DecidableEq, Repr

/-- Result of a `sendTransaction` run: the new component state, the ordered
trace of performed steps, and the transaction that was built (if the flow
reached line 122). -/
structure SendResult where
  state : AppState
  trace : List Event
  built : Option Tx

/-- JavaScript `String.prototype.includes`: `sub` occurs somewhere in `s`. -/
def strIncludes (s sub : String) : Bool :=
  (List.range (s.data.length + 1)).any (fun i => sub.data.isPrefixOf (s.data.drop i))

/-- The catch-block classification of lines 143-154: substring checks for
"insufficient funds", then "invalid address", then "User rejected", and
otherwise the generic message with the raw text appended. -/
def classifyError (msg : String) : String :=
  if strIncludes msg "insufficient funds" then "Insufficient funds for this transaction."
  else if strIncludes msg "invalid address" then "Invalid wallet address."
  else if strIncludes msg "User rejected" then "Transaction was rejected by the user."
  else "Transaction Failed" ++ ": " ++ msg

/-- Success message of line 142 (the source file's literal leading glyphs
are kept byte-for-byte). -/
def successMsg (sig : String) : String := "âœ… Transaction Successful: " ++ sig

/-- Source `sendTransaction` (lines 99-158).  Guard: without a wallet set
the error and stop (lines 100-103).  Then `validateAddress` runs (setting
its flag) and on failure the flow stops before `validateAmount` is ever
evaluated (lines 105-108); then `validateAmount` (lines 110-113).  With
both valid, `isLoading` is set and both messages are cleared (115-117);
the transfer is constructed (122-130) before the blockhash fetch (132),
then the wallet signs (135), the raw transaction is broadcast (136), the
interim submitted message is shown (138), and confirmation is awaited
(140).  The construction itself throws, inside the try block, when the
lamport count is not a finite integer (encoding `Infinity`, which a
validated amount such as `"1e400"` produces): that run ends at the build
step with no blockhash fetch, recorded as a trace stopping at
`Event.buildTx` with nothing built.  Any throw jumps to the catch block,
which only sets the classified error (the confirmation cell is not
touched there); the finally block resets `isLoading` (156). -/
def sendTransaction (s : AppState) (env : Env) : SendResult :=
  match s.wallet with
  | none => ⟨{s with error := "Please connect your wallet first."}, [], none⟩
  | some w =>
    if !(isValidAddress s.receiverAddress) then
      ⟨{s with isAddressValid := false, error := "Invalid receiver address."},
        [Event.validateAddr], none⟩
    else if !(validateAmountB s.amount) then
      ⟨{s with isAddressValid := true, isAmountValid := false, error := "Invalid amount."},
        [Event.validateAddr, Event.validateAmt], none⟩
    else
      let sV := {s with isAddressValid := true, isAmountValid := true,
                        isLoading := true, error := "", confirmation := ""}
      match lamportsOf s.amount with
      | none =>
        ⟨{sV with error := classifyError env.buildThrowMsg, isLoading := false},
          [Event.validateAddr, Event.validateAmt, Event.buildTx], none⟩
      | some lam =>
      let tx0 : Tx := { fromPubkey := w, toPubkey := s.receiverAddress,
                        lamports := lam, feePayer := w,
                        recentBlockhash := none }
      match env.blockhashRes with
      | Except.error m =>
        ⟨{sV with error := classifyError m, isLoading := false},
          [Event.validateAddr, Event.validateAmt, Event.buildTx,
           Event.getLatestBlockhash], some tx0⟩
      | Except.ok (bh, _lvh) =>
        let tx1 := {tx0 with recentBlockhash := some bh}
        match env.signRes with
        | Except.error m =>
          ⟨{sV with error := classifyError m, isLoading := false},
            [Event.validateAddr, Event.validateAmt, Event.buildTx,
             Event.getLatestBlockhash, Event.signTransaction], some tx1⟩
        | Except.ok _ =>
          match env.sendRes with
          | Except.error m =>
            ⟨{sV with error := classifyError m, isLoading := false},
              [Event.validateAddr, Event.validateAmt, Event.buildTx,
               Event.getLatestBlockhash, Event.signTransaction,
               Event.sendRawTransaction], some tx1⟩
          | Except.ok sig =>
            let sSub := {sV with confirmation := "Transaction submitted..."}
            match env.confirmRes with
            | Except.error m =>
              ⟨{sSub with error := classifyError m, isLoading := false},
                [Event.validateAddr, Event.validateAmt, Event.buildTx,
                 Event.getLatestBlockhash, Event.signTransaction,
                 Event.sendRawTransaction, Event.confirmTransaction], some tx1⟩
            | Except.ok _ =>
              ⟨{sSub with confirmation := successMsg sig, isLoading := false},
                [Event.validateAddr, Event.validateAmt, Event.buildTx,
                 Event.getLatestBlockhash, Event.signTransaction,
                 Event.sendRawTransaction, Event.confirmTransaction], some tx1⟩

/-- Source `handleAddressChange` (lines 87-91): store the new text and
re-validate it only when it is truthy (non-empty). -/
def handleAddressChange (s : AppState) (address : String) : AppState :=
  let s1 := {s with receiverAddress := address}
  if address.isEmpty then s1
  else if isValidAddress address then {s1 with isAddressValid := true}
  else {s1 with isAddressValid := false}

/-- Source `handleAmountChange` (lines 93-97): store the new text and
re-validate it only when it is truthy (non-empty). -/
def handleAmountChange (s : AppState) (value : String) : AppState :=
  let s1 := {s with amount := value}
  if value.isEmpty then s1
  else if validateAmountB value then {s1 with isAmountValid := true}
  else {s1 with isAmountValid := false}

/-- Source `connectWallet` (lines 51-67): without a Phantom provider only
the install-hint error is set; otherwise the connection either succeeds
(wallet set, error cleared) or fails (error set), and the finally block
resets `isLoading`. -/
def connectWallet (s : AppState) (phantomAvailable : Bool)
    (res : Except String String) : AppState :=
  if !phantomAvailable then
    {s with error := "Phantom wallet not installed. Get it from https://phantom.app/"}
  else
    match res with
    | Except.ok pk => {s with isLoading := false, wallet := some pk, error := ""}
    | Except.error m => {s with isLoading := false, error := "Error connecting to wallet: " ++ m}

/-- The disabled condition of the send button (line 216):
`isLoading || !isAddressValid || !isAmountValid`. -/
def sendDisabled (s : AppState) : Bool := s.isLoading || !s.isAddressValid || !s.isAmountValid

/-- User-interface events.  Connect carries provider availability and the
connect outcome; submit carries the outcomes of the external calls. -/
inductive UiAction where
  | connect (phantomAvailable : Bool) (res : Except String String)
  | editAddress (v : String)
  | editAmount (v : String)
  | submit (env : Env)

/-- One user interaction, honouring what the rendered page allows: the
connect button exists only without a wallet and is disabled while loading
(lines 167-177); the two inputs and the send button exist only with a
wallet connected (lines 178-227); the send button is disabled per
`sendDisabled` (line 216).  Disallowed interactions leave the state
unchanged. -/
def step (s : AppState) (a : UiAction) : AppState :=
  match a with
  | UiAction.connect avail res =>
    if s.wallet.isNone && !s.isLoading then connectWallet s avail res else s
  | UiAction.editAddress v => if s.wallet.isSome then handleAddressChange s v else s
  | UiAction.editAmount v => if s.wallet.isSome then handleAmountChange s v else s
  | UiAction.submit env =>
    if s.wallet.isSome && !(sendDisabled s) then (sendTransaction s env).state else s

/-- A state reached from the initial one by a list of interactions. -/
def run (acts : List UiAction) : AppState := acts.foldl step initState

/-- An environment in which every external call succeeds. -/
def okEnv : Env :=
  { blockhashRes := Except.ok ("BH", 100), signRes := Except.ok (),
    sendRes := Except.ok "SIG", confirmRes := Except.ok (),
    buildThrowMsg := "The number Infinity cannot be converted to a BigInt because it is not an integer" }


/-- A state with a connected wallet and an ill-formed recipient address. -/
def badAddrState : AppState :=
  {initState with wallet := some "W", receiverAddress := "not-an-address"}

/-- An environment in which `confirmTransaction` rejects with a timeout
message while every earlier call succeeds. -/
def confirmFailEnv : Env :=
  { blockhashRes := Except.ok ("BH", 100), signRes := Except.ok (),
    sendRes := Except.ok "SIG", confirmRes := Except.error "timeout exceeded",
    buildThrowMsg := "The number Infinity cannot be converted to a BigInt because it is not an integer" }

/-- C2: calling `sendTransaction` with no wallet connected sets only the
no-wallet error, performs no external call, builds nothing, and leaves
every other state cell (inputs, validity flags, confirmation, loading)
unchanged. -/
theorem sendTransaction_no_wallet (s : AppState) (env : Env)
    (h : s.wallet = none) :
    (sendTransaction s env).state = {s with error := "Please connect your wallet first."} ∧
    (sendTransaction s env).trace = [] ∧
    (sendTransaction s env).built = none ∧
    (sendTransaction s env).state.receiverAddress = s.receiverAddress ∧
    (sendTransaction s env).state.amount = s.amount ∧
    (sendTransaction s env).state.isAddressValid = s.isAddressValid ∧
    (sendTransaction s env).state.isAmountValid = s.isAmountValid ∧
    (sendTransaction s env).state.confirmation = s.confirmation ∧
    (sendTransaction s env).state.isLoading = s.isLoading := by
  simp [sendTransaction, h]

theorem sendTransaction_no_wallet_witness :
    (sendTransaction initState okEnv).state =
      {initState with error := "Please connect your wallet first."} ∧
    (sendTransaction initState okEnv).trace = [] :=
  ⟨(sendTransaction_no_wallet initState okEnv rfl).1,
   (sendTransaction_no_wallet initState okEnv rfl).2.1⟩

/-- C3: with a wallet connected the address is validated first; an invalid
address stops the flow with the invalid-address error, leaving the amount
flag untouched; a valid address with an invalid amount stops with the
invalid-amount error; neither case performs any external call. -/
theorem sendTransaction_validation_short_circuit (s : AppState) (env : Env) (w : String)
    (hw : s.wallet = some w) :
    (isValidAddress s.receiverAddress = false →
      sendTransaction s env =
        ⟨{s with isAddressValid := false, error := "Invalid receiver address."},
          [Event.validateAddr], none⟩ ∧
      (sendTransaction s env).state.isAmountValid = s.isAmountValid ∧
      (sendTransaction s env).trace.all (fun e => !isExternalCall e) = true) ∧
    (isValidAddress s.receiverAddress = true → validateAmountB s.amount = false →
      sendTransaction s env =
        ⟨{s with isAddressValid := true, isAmountValid := false, error := "Invalid amount."},
          [Event.validateAddr, Event.validateAmt], none⟩ ∧
      (sendTransaction s env).trace.all (fun e => !isExternalCall e) = true) := by
  constructor
  · intro hA
    simp [sendTransaction, hw, hA, isExternalCall]
  · intro hA hM
    simp [sendTransaction, hw, hA, hM, isExternalCall]

theorem sendTransaction_validation_short_circuit_witness :
    sendTransaction badAddrState okEnv =
      ⟨{badAddrState with isAddressValid := false, error := "Invalid receiver address."},
        [Event.validateAddr], none⟩ :=
  ((sendTransaction_validation_short_circuit badAddrState okEnv "W" rfl).1 (by decide)).1

/-- C10: editing an input to the empty string skips re-validation, so the
validity flag keeps its previous value; both flags start `true`, hence
right after connecting (address still empty) the send button is enabled. -/
theorem empty_input_keeps_validity :
    (∀ s : AppState, (handleAddressChange s "").isAddressValid = s.isAddressValid) ∧
    (∀ s : AppState, (handleAmountChange s "").isAmountValid = s.isAmountValid) ∧
    initState.isAddressValid = true ∧
    initState.isAmountValid = true ∧
    (run [UiAction.connect true (Except.ok "W")]).receiverAddress = "" ∧
    sendDisabled (run [UiAction.connect true (Except.ok "W")]) = false := by
  exact ⟨fun s => rfl, fun s => rfl, rfl, rfl, by decide, by decide⟩

/-- C6 counterexample: after a failed submission (a reachable terminal
state with an error showing), editing the address field neither clears the
error nor the confirmation message, contradicting the claim that edits
reset both. -/
theorem edit_does_not_clear_cex :
    (run [UiAction.connect true (Except.ok "W"),
          UiAction.editAddress "11111111111111111111111111111111",
          UiAction.submit confirmFailEnv,
          UiAction.editAddress "abc"]).error = "Transaction Failed: timeout exceeded" ∧
    (run [UiAction.connect true (Except.ok "W"),
          UiAction.editAddress "11111111111111111111111111111111",
          UiAction.submit confirmFailEnv,
          UiAction.editAddress "abc"]).confirmation = "Transaction submitted..." ∧
    (run [UiAction.connect true (Except.ok "W"),
          UiAction.editAddress "11111111111111111111111111111111",
          UiAction.submit confirmFailEnv,
          UiAction.editAddress "abc"]).receiverAddress = "abc" ∧
    (run [UiAction.connect true (Except.ok "W"),
          UiAction.editAddress "11111111111111111111111111111111",
          UiAction.submit confirmFailEnv,
          UiAction.editAddress "abc"]).wallet = some "W" := by decide

/-- C6 amended: an edit to either input updates the text (re-validating it
when non-empty) but leaves the error message, the confirmation message and
the wallet session unchanged. -/
theorem edit_preserves_messages :
    ∀ (s : AppState) (v : String),
      (handleAddressChange s v).error = s.error ∧
      (handleAddressChange s v).confirmation = s.confirmation ∧
      (handleAddressChange s v).wallet = s.wallet ∧
      (handleAddressChange s v).receiverAddress = v ∧
      (handleAmountChange s v).error = s.error ∧
      (handleAmountChange s v).confirmation = s.confirmation ∧
      (handleAmountChange s v).wallet = s.wallet ∧
      (handleAmountChange s v).amount = v := by
  intro s v
  unfold handleAddressChange handleAmountChange
  by_cases h : v.isEmpty <;> by_cases h2 : isValidAddress v <;>
    by_cases h3 : validateAmountB v <;> simp [h, h2, h3]

/-- C7 counterexample: a failure message containing "invalid address" (and
neither "insufficient funds" nor "User rejected") is mapped to the
dedicated invalid-wallet-address message, not to the generic
transaction-failed message with the raw text appended, so the claimed
three-way classification misses a branch. -/
theorem classify_invalid_address_cex :
    classifyError "simulated invalid address" = "Invalid wallet address." ∧
    strIncludes "simulated invalid address" "insufficient funds" = false ∧
    strIncludes "simulated invalid address" "User rejected" = false ∧
    classifyError "simulated invalid address" ≠
      "Transaction Failed" ++ ": " ++ "simulated invalid address" := by decide

/-- C7 amended: the catch-block classification checks, in order,
"insufficient funds", then "invalid address", then "User rejected", and
only otherwise falls back to the generic transaction-failed message with
the raw message appended. -/
theorem classifyError_branches (msg : String) :
    (strIncludes msg "insufficient funds" = true →
      classifyError msg = "Insufficient funds for this transaction.") ∧
    (strIncludes msg "insufficient funds" = false →
      strIncludes msg "invalid address" = true →
      classifyError msg = "Invalid wallet address.") ∧
    (strIncludes msg "insufficient funds" = false →
      strIncludes msg "invalid address" = false →
      strIncludes msg "User rejected" = true →
      classifyError msg = "Transaction was rejected by the user.") ∧
    (strIncludes msg "insufficient funds" = false →
      strIncludes msg "invalid address" = false →
      strIncludes msg "User rejected" = false →
      classifyError msg = "Transaction Failed" ++ ": " ++ msg) := by
  unfold classifyError
  refine ⟨fun h1 => by simp [h1], fun h1 h2 => by simp [h1, h2],
    fun h1 h2 h3 => by simp [h1, h2, h3], fun h1 h2 h3 => by simp [h1, h2, h3]⟩

theorem classifyError_branches_witness :
    strIncludes "User rejected the request." "insufficient funds" = false ∧
    strIncludes "User rejected the request." "invalid address" = false ∧
    strIncludes "User rejected the request." "User rejected" = true ∧
    classifyError "User rejected the request." = "Transaction was rejected by the user." :=
  ⟨by decide, by decide, by decide,
    (classifyError_branches "User rejected the request.").2.2.1 (by decide) (by decide) (by decide)⟩

